import Mathlib

/-!
Verification of the simulation core of the arcade defense game in
src/src/App.tsx (a missile-command style game rendered on a 2D canvas).

The embedding below translates the game logic into Lean:

- JavaScript numbers are modelled as exact rationals.  Every numeric
  constant of the source (16.67, 1.5, 0.8, 0.0015, 0.12, ...) is an exact
  decimal literal, which OfScientific maps to the same rational.
- The comparison distance(p, q) < r of the source (with distance the
  Euclidean square-root distance) is modelled by the equivalent exact
  condition 0 < r AND dist2 p q < r ^ 2, because sqrt is monotone and
  nonnegative.  This keeps every definition computable over the rationals.
- Math.random() draws are passed in explicitly as inputs (UnitRand values,
  each a rational in [0, 1)).  The source attaches a fresh random string id
  to each spawned entity; ids are never read by any game logic and are
  omitted from the records.
- The mutable React refs (rocketsRef, citiesRef, ..., score, gameState)
  become the fields of one GameState record; update, initGame and
  handleCanvasClick become pure functions on that record.  setScore and
  setGameState with functional updaters are sequential assignments within
  one step, which the state threading below reproduces (the last write to
  the phase wins, exactly as the last setGameState call wins in React).
- The source loops over the entity arrays from the last index down to 0 and
  splices elements out, so each iteration sees exactly the original
  elements, later indices first, and elements pushed during the loop are
  never visited.  The recursive functions below reproduce this by first
  processing the tail (the higher indices) and then the head.
-/

namespace StarDefense

/-- Phase of a run.  The source names this union type GameState and stores
it in the gameState React state: START, PLAYING, WON, LOST. -/
inductive GamePhase where
  | START
  | PLAYING
  | WON
  | LOST
deriving DecidableEq, Repr

/-- 2D point in screen-space pixels. -/
structure Point where
  x : ℚ
  y : ℚ
deriving DecidableEq, Repr

/-- Squared Euclidean distance.  The source helper
distance(p1, p2) = sqrt((p1.x - p2.x) ** 2 + (p1.y - p2.y) ** 2)
is only ever used inside comparisons, which are modelled by comparing
dist2 against the square of the bound (sqrt is monotone). -/
def dist2 (p q : Point) : ℚ :=
  (p.x - q.x) ^ 2 + (p.y - q.y) ^ 2

/-- Enemy rocket: falls from (x, y) toward (targetX, targetY), with
progress in [0, 1] interpolating between the two. -/
structure Rocket where
  x : ℚ
  y : ℚ
  targetX : ℚ
  targetY : ℚ
  speed : ℚ
  progress : ℚ
deriving DecidableEq, Repr

/-- Player interceptor fired from a tower toward a tap point. -/
structure Interceptor where
  startX : ℚ
  startY : ℚ
  x : ℚ
  y : ℚ
  targetX : ℚ
  targetY : ℚ
  progress : ℚ
  speed : ℚ
deriving DecidableEq, Repr

/-- Explosion hazard volume. -/
structure Explosion where
  x : ℚ
  y : ℚ
  radius : ℚ
  maxRadius : ℚ
  expanding : Bool
  life : ℚ
deriving DecidableEq, Repr

/-- Ground installation to defend. -/
structure City where
  x : ℚ
  y : ℚ
  alive : Bool
deriving DecidableEq, Repr

/-- Launch site.  Ammo is cosmetic (never decremented nor read). -/
structure Tower where
  x : ℚ
  y : ℚ
  alive : Bool
  ammo : ℚ
  maxAmmo : ℚ
deriving DecidableEq, Repr

/-- The whole mutable game state of the component: the gameState and score
React states, the five entity collection refs, the spawn timer ref and the
viewport dimensions ref. -/
structure GameState where
  gameState : GamePhase
  score : ℚ
  rockets : List Rocket
  interceptors : List Interceptor
  explosions : List Explosion
  cities : List City
  towers : List Tower
  spawnTimer : ℚ
  width : ℚ
  height : ℚ
deriving DecidableEq, Repr

/-- The fixed win threshold TARGET_SCORE = 1000. -/
def TARGET_SCORE : ℚ := 1000

/-- A Math.random() draw: a rational in [0, 1). -/
structure UnitRand where
  val : ℚ
  nonneg : 0 ≤ val
  lt_one : val < 1

/-- The random draws consumed by one potential rocket spawn: horizontal
position, target pick, and speed jitter. -/
structure SpawnRand where
  posR : UnitRand
  pickR : UnitRand
  spdR : UnitRand

/-- Index produced by Math.floor(Math.random() * length). -/
def randIndex (r : UnitRand) (n : ℕ) : ℕ :=
  (⌊r.val * n⌋).toNat

/-- Rocket advance of one frame:
progress += speed * (delta / 16.67). -/
def advanceRocket (delta : ℚ) (r : Rocket) : Rocket :=
  { r with progress := r.progress + r.speed * (delta / 16.67) }

/-- Interceptor advance of one frame, same formula as for rockets. -/
def advanceInterceptor (delta : ℚ) (i : Interceptor) : Interceptor :=
  { i with progress := i.progress + i.speed * (delta / 16.67) }

/-- Current interpolated x of a rocket:
rocket.x + (rocket.targetX - rocket.x) * rocket.progress. -/
def interpX (r : Rocket) : ℚ :=
  r.x + (r.targetX - r.x) * r.progress

/-- Current interpolated y of a rocket. -/
def interpY (r : Rocket) : ℚ :=
  r.y + (r.targetY - r.y) * r.progress

/-- The explosion pushed when a rocket impacts its target
(radius 0, maxRadius 40, expanding, life 1). -/
def impactExplosion (x y : ℚ) : Explosion :=
  { x := x, y := y, radius := 0, maxRadius := 40, expanding := true, life := 1 }

/-- The explosion pushed when an interceptor detonates
(radius 0, maxRadius 50, expanding, life 1). -/
def interceptorExplosion (x y : ℚ) : Explosion :=
  { x := x, y := y, radius := 0, maxRadius := 50, expanding := true, life := 1 }

/-- The secondary chain explosion pushed when an explosion destroys a
rocket (radius 0, maxRadius 40, expanding, life 1). -/
def chainExplosion (x y : ℚ) : Explosion :=
  { x := x, y := y, radius := 0, maxRadius := 40, expanding := true, life := 1 }

/-- citiesRef.find(c => c.x === tx && c.y === ty), then alive = false on
the found city: sets alive to false on the first coordinate match only. -/
def markCityDead (tx ty : ℚ) : List City → List City
  | [] => []
  | c :: cs =>
    if c.x = tx ∧ c.y = ty then { c with alive := false } :: cs
    else c :: markCityDead tx ty cs

/-- towersRef.find with the same coordinate match, then alive = false. -/
def markTowerDead (tx ty : ℚ) : List Tower → List Tower
  | [] => []
  | t :: ts =>
    if t.x = tx ∧ t.y = ty then { t with alive := false } :: ts
    else t :: markTowerDead tx ty ts

/-- Result of the rocket update loop (step 2 of update). -/
structure RocketStepOut where
  rockets : List Rocket
  cities : List City
  towers : List Tower
  explosions : List Explosion
  phase : GamePhase
deriving DecidableEq, Repr

/-- Step 2 of update: the reverse for-loop over rocketsRef.  Each rocket
advances; a rocket whose progress reaches 1 resolves its impact (first
coordinate-matching city and tower are marked dead, an impact explosion is
pushed, the rocket is spliced out) and then the loss check
towersRef.every(t => !t.alive) may set the phase to LOST.  The loop runs
from the last index down to 0, so the tail of the list is processed before
the head; pushed explosions are appended behind all earlier content. -/
def stepRockets (delta : ℚ) :
    List Rocket → List City → List Tower → List Explosion → GamePhase →
    RocketStepOut
  | [], cs, ts, es, ph => ⟨[], cs, ts, es, ph⟩
  | r :: rest, cs, ts, es, ph =>
    let o := stepRockets delta rest cs ts es ph
    let ra := advanceRocket delta r
    if 1 ≤ ra.progress then
      let cs2 := markCityDead r.targetX r.targetY o.cities
      let ts2 := markTowerDead r.targetX r.targetY o.towers
      let es2 := o.explosions ++ [impactExplosion r.targetX r.targetY]
      let ph2 := if ts2.all (fun t => !t.alive) then GamePhase.LOST else o.phase
      ⟨o.rockets, cs2, ts2, es2, ph2⟩
    else
      ⟨ra :: o.rockets, o.cities, o.towers, o.explosions, o.phase⟩

/-- Result of the interceptor update loop (step 3 of update). -/
structure InterStepOut where
  interceptors : List Interceptor
  explosions : List Explosion
deriving DecidableEq, Repr

/-- Step 3 of update: the reverse for-loop over interceptorsRef.  An
interceptor whose progress reaches 1 detonates: an explosion with
maxRadius 50 is pushed at its target and the interceptor is spliced out. -/
def stepInterceptors (delta : ℚ) :
    List Interceptor → List Explosion → InterStepOut
  | [], es => ⟨[], es⟩
  | i :: rest, es =>
    let o := stepInterceptors delta rest es
    let ia := advanceInterceptor delta i
    if 1 ≤ ia.progress then
      ⟨o.interceptors, o.explosions ++ [interceptorExplosion i.targetX i.targetY]⟩
    else
      ⟨ia :: o.interceptors, o.explosions⟩

/-- The collision test of the explosion loop:
distance({x: rx, y: ry}, exp) < exp.radius, with (rx, ry) the interpolated
rocket position, written squared (sqrt d < r iff 0 < r and d ^ 2 < r ^ 2). -/
def hitB (e : Explosion) (r : Rocket) : Bool :=
  decide (0 < e.radius ∧
    dist2 ⟨interpX r, interpY r⟩ ⟨e.x, e.y⟩ < e.radius ^ 2)

/-- Result of resolving one explosion hazard against the rockets. -/
structure CollideOut where
  rockets : List Rocket
  score : ℚ
  phase : GamePhase
  chains : List Explosion
deriving DecidableEq, Repr

/-- The inner reverse for-loop of step 4 of update: one explosion tested
against every rocket.  A hit splices the rocket out, adds 20 to the score
through setScore (checking the TARGET_SCORE win threshold immediately) and
pushes a chain explosion at the kill location.  The chain explosions are
returned separately because the outer loop never visits them. -/
def collideRockets (e : Explosion) :
    List Rocket → ℚ → GamePhase → CollideOut
  | [], sc, ph => ⟨[], sc, ph, []⟩
  | r :: rest, sc, ph =>
    let o := collideRockets e rest sc ph
    if hitB e r then
      let ns := o.score + 20
      let ph2 := if TARGET_SCORE ≤ ns then GamePhase.WON else o.phase
      ⟨o.rockets, ns, ph2, o.chains ++ [chainExplosion (interpX r) (interpY r)]⟩
    else
      ⟨r :: o.rockets, o.score, o.phase, o.chains⟩

/-- Radius update of one explosion: while expanding, grow by
1.5 * (delta / 16.67) and stop expanding once the radius reaches
maxRadius (the radius itself is not clamped); otherwise shrink by
0.8 * (delta / 16.67) and return none (splice out) once the radius
drops to 0 or below. -/
def advanceExplosion (delta : ℚ) (e : Explosion) : Option Explosion :=
  if e.expanding then
    let r2 := e.radius + 1.5 * (delta / 16.67)
    some { e with radius := r2,
                  expanding := if e.maxRadius ≤ r2 then false else true }
  else
    let r2 := e.radius - 0.8 * (delta / 16.67)
    if r2 ≤ 0 then none else some { e with radius := r2 }

/-- Result of the explosion update loop (step 4 of update). -/
structure ExploStepOut where
  explosions : List Explosion
  rockets : List Rocket
  score : ℚ
  phase : GamePhase
deriving DecidableEq, Repr

/-- Step 4 of update: the reverse for-loop over explosionsRef.  Each
explosion present at the start of the loop is advanced; a faded explosion
is spliced out and skipped (continue); a remaining explosion is tested
against the current rockets.  Chain explosions pushed during the loop sit
above the starting index and are never visited, so they come after every
surviving original explosion in the final array. -/
def stepExplosions (delta : ℚ) :
    List Explosion → List Rocket → ℚ → GamePhase → ExploStepOut
  | [], rkts, sc, ph => ⟨[], rkts, sc, ph⟩
  | e :: rest, rkts, sc, ph =>
    let o := stepExplosions delta rest rkts sc ph
    match advanceExplosion delta e with
    | none => o
    | some ea =>
      let c := collideRockets ea o.rockets o.score o.phase
      ⟨ea :: o.explosions ++ c.chains, c.rockets, c.score, c.phase⟩

/-- Step 1 of update: the spawn targets, alive cities first then alive
towers, exactly as [...cities.filter(alive), ...towers.filter(alive)];
only the coordinates are read from the picked element. -/
def spawnTargets (s : GameState) : List Point :=
  (s.cities.filter (fun c => c.alive)).map (fun c => ⟨c.x, c.y⟩) ++
  (s.towers.filter (fun t => t.alive)).map (fun t => ⟨t.x, t.y⟩)

/-- The rocket pushed by the spawn scheduler: origin at a random x along
the top edge (y = -20), target the randomly picked alive installation,
speed 0.0015 + Math.random() * 0.0015 + score / 100000, progress 0.
The picked index Math.floor(Math.random() * targets.length) is always in
bounds for a draw in [0, 1), so the getD default is never reached. -/
def spawnRocket (rnd : SpawnRand) (score width : ℚ) (targets : List Point) :
    Rocket :=
  let tgt := targets.getD (randIndex rnd.pickR targets.length) ⟨0, 0⟩
  { x := rnd.posR.val * width, y := -20,
    targetX := tgt.x, targetY := tgt.y,
    speed := 0.0015 + rnd.spdR.val * 0.0015 + score / 100000,
    progress := 0 }

/-- Step 1 of update: the spawn timer accumulates delta and fires once it
exceeds max(266, 1000 - (score / 100) * 66); on firing it resets to 0
(even when no target is alive) and, when some city or tower is alive,
pushes one new rocket.  Returns the new timer and rocket list. -/
def spawnStep (delta : ℚ) (rnd : SpawnRand) (s : GameState) :
    ℚ × List Rocket :=
  let timerA := s.spawnTimer + delta
  let spawnRate := max 266 (1000 - s.score / 100 * 66)
  if spawnRate < timerA then
    let targets := spawnTargets s
    if 0 < targets.length then
      (0, s.rockets ++ [spawnRocket rnd s.score s.width targets])
    else (0, s.rockets)
  else (timerA, s.rockets)

/-- One simulation step, the update(dt) function of the source.  A no-op
unless the phase is PLAYING.  dt is clamped to 100; then the spawn
scheduler, the rocket loop, the interceptor loop and the explosion loop
run in that order, threading the entity collections, the score and the
phase exactly as the mutable refs and the sequential setState calls do. -/
def update (dt : ℚ) (rnd : SpawnRand) (s : GameState) : GameState :=
  if s.gameState = GamePhase.PLAYING then
    let delta := min dt 100
    let sp := spawnStep delta rnd s
    let o1 := stepRockets delta sp.2 s.cities s.towers s.explosions s.gameState
    let o2 := stepInterceptors delta s.interceptors o1.explosions
    let o3 := stepExplosions delta o2.explosions o1.rockets s.score o1.phase
    { s with
      gameState := o3.phase, score := o3.score,
      rockets := o3.rockets, interceptors := o2.interceptors,
      explosions := o3.explosions, spawnTimer := sp.1 }
  else s

/-- The rocket stage of update (step 2) applied after the spawn stage. -/
def rocketStage (delta : ℚ) (rnd : SpawnRand) (s : GameState) :
    RocketStepOut :=
  stepRockets delta (spawnStep delta rnd s).2 s.cities s.towers
    s.explosions s.gameState

/-- The interceptor stage of update (step 3). -/
def interStage (delta : ℚ) (rnd : SpawnRand) (s : GameState) :
    InterStepOut :=
  stepInterceptors delta s.interceptors (rocketStage delta rnd s).explosions

/-- The explosion stage of update (step 4). -/
def exploStage (delta : ℚ) (rnd : SpawnRand) (s : GameState) :
    ExploStepOut :=
  stepExplosions delta (interStage delta rnd s).explosions
    (rocketStage delta rnd s).rockets s.score (rocketStage delta rnd s).phase

/-- INITIAL_AMMO = [40, 40, 80, 40, 40]. -/
def INITIAL_AMMO : List ℚ := [40, 40, 80, 40, 40]

/-- Tower horizontal fractions [0.1, 0.3, 0.5, 0.7, 0.9]. -/
def towerPositions : List ℚ := [0.1, 0.3, 0.5, 0.7, 0.9]

/-- City horizontal fractions [0.2, 0.4, 0.45, 0.55, 0.6, 0.8]. -/
def cityPositions : List ℚ := [0.2, 0.4, 0.45, 0.55, 0.6, 0.8]

/-- initGame: derives 5 towers (y = height - 50) and 6 cities
(y = height - 40) from the current viewport dimensions, clears the three
transient collections, resets the score to 0 and the spawn timer to 0, and
enters PLAYING.  Only the dimensions survive from the previous state.
The lastTimeRef wall-clock reset is frame-driver bookkeeping outside the
simulation state. -/
def initGame (s : GameState) : GameState :=
  { gameState := GamePhase.PLAYING, score := 0,
    rockets := [], interceptors := [], explosions := [],
    towers := List.zipWith
      (fun pos ammo =>
        { x := s.width * pos, y := s.height - 50,
          alive := true, ammo := ammo, maxAmmo := ammo })
      towerPositions INITIAL_AMMO,
    cities := cityPositions.map
      (fun pos => { x := s.width * pos, y := s.height - 40, alive := true }),
    spawnTimer := 0, width := s.width, height := s.height }

/-- The random draws consumed by one interceptor of a burst: the x and y
target offsets and the speed jitter. -/
structure ClickRand where
  oxR : UnitRand
  oyR : UnitRand
  spdR : UnitRand

/-- One interceptor of a burst: origin at the chosen tower, target the tap
point plus (Math.random() - 0.5) * 30 per axis, progress 0, speed
0.12 + Math.random() * 0.05. -/
def mkInterceptor (tw : Tower) (x y : ℚ) (cr : ClickRand) : Interceptor :=
  { startX := tw.x, startY := tw.y, x := tw.x, y := tw.y,
    targetX := x + (cr.oxR.val - 0.5) * 30,
    targetY := y + (cr.oyR.val - 0.5) * 30,
    progress := 0,
    speed := 0.12 + cr.spdR.val * 0.05 }

/-- The comparator of handleCanvasClick sorts the alive towers by
ascending distance to the tap point (comparator
distance(p, a) - distance(p, b)); ascending sqrt distance is ascending
squared distance.  Array.prototype.sort is stable, modelled by the stable
List.mergeSort. -/
def sortedAliveTowers (x y : ℚ) (ts : List Tower) : List Tower :=
  (ts.filter (fun t => t.alive)).mergeSort
    (fun a b => decide (dist2 ⟨x, y⟩ ⟨a.x, a.y⟩ ≤ dist2 ⟨x, y⟩ ⟨b.x, b.y⟩))

/-- handleCanvasClick at canvas coordinate (x, y): ignored unless PLAYING;
otherwise fires a burst of 5 interceptors from the first tower of the
distance-sorted alive towers, or does nothing when no tower is alive.
The canvas-coordinate translation of the pointer event is presentation
glue; (x, y) here is already surface-relative. -/
def handleCanvasClick (x y : ℚ) (rnd : Fin 5 → ClickRand) (s : GameState) :
    GameState :=
  if s.gameState = GamePhase.PLAYING then
    match sortedAliveTowers x y s.towers with
    | [] => s
    | tower :: _ =>
      { s with interceptors :=
          s.interceptors ++ List.ofFn (fun i : Fin 5 => mkInterceptor tower x y (rnd i)) }
  else s

/-! ### Renderer model

The draw callback reads the entity collections and the viewport dimensions
and issues canvas context calls; it writes nothing back to the game state.
Each context call is modelled as one DrawCmd value, so a draw invocation
emits a list of drawing commands.  Arc angles in the source are all
rational multiples of pi and are stored as the coefficient of pi; the two
rotate calls use atan2(dy, dx) + pi / 2 and are stored as the (dy, dx)
pair.  Color strings are kept verbatim.  The one random quantity of the
renderer is the rocket flame size (5 + Math.random() * 5) * 2, supplied
here as a stream of draws indexed by the rocket position in the list. -/

/-- A gradient color stop (offset, CSS color). -/
structure ColorStop where
  offset : ℚ
  color : String
deriving DecidableEq, Repr

/-- A canvas fill style: a plain CSS color, a linear gradient with its
stops, or a radial gradient with its stops. -/
inductive FillKind where
  | color (c : String)
  | linear (x0 y0 x1 y1 : ℚ) (stops : List ColorStop)
  | radial (x0 y0 r0 x1 y1 r1 : ℚ) (stops : List ColorStop)
deriving DecidableEq, Repr

/-- One canvas context call issued by the draw callback. -/
inductive DrawCmd where
  | clearRect (x y w h : ℚ)
  | setFill (k : FillKind)
  | setStrokeColor (c : String)
  | fillRect (x y w h : ℚ)
  | save
  | restore
  | translate (x y : ℚ)
  | rotateAtan2HalfPi (dy dx : ℚ)
  | beginPath
  | closePath
  | moveTo (x y : ℚ)
  | lineTo (x y : ℚ)
  | arcPi (x y r aPi bPi : ℚ)
  | roundRect (x y w h r : ℚ)
  | fill
  | stroke
  | setLineWidth (w : ℚ)
  | setLineCap (c : String)
  | setLineDash (segs : List ℚ)
  | setShadowBlur (b : ℚ)
  | setShadowColor (c : String)
deriving DecidableEq, Repr

def colGray900 : String := "#1a1a1a"
def colBlack : String := "#000000"
def colGray600 : String := "#4b5563"
def colBlue400 : String := "#60a5fa"
def colBlue500 : String := "#3b82f6"
def colGray950 : String := "#111827"
def colGray400 : String := "#9ca3af"
def colGray700 : String := "#374151"
def colGray800 : String := "#1f2937"
def colShieldA : String := "rgba(59, 130, 246, 0.5)"
def colShieldB : String := "rgba(59, 130, 246, 0.2)"
def colTrail : String := "rgba(255, 69, 0, 0.2)"
def colFlame : String := "#ff4500"
def colTransparent : String := "transparent"
def colRed500 : String := "#ef4444"
def colBeam : String := "rgba(0, 255, 255, 0.4)"
def colCyan : String := "#00ffff"
def colWhite : String := "#ffffff"
def colAmber : String := "#fbbf24"
def colRedFade : String := "rgba(239, 68, 68, 0)"
def capRound : String := "round"

/-- Ground terrain: a vertical linear gradient over the bottom 30 px. -/
def drawGround (w h : ℚ) : List DrawCmd :=
  [DrawCmd.setFill (FillKind.linear 0 (h - 30) 0 h
      [⟨0, colGray900⟩, ⟨1, colBlack⟩]),
   DrawCmd.fillRect 0 (h - 30) w 30]

/-- One city (military bunker); dead cities are skipped. -/
def drawCity (c : City) : List DrawCmd :=
  if c.alive then
    [DrawCmd.save,
     DrawCmd.translate c.x c.y,
     DrawCmd.setFill (FillKind.color colGray600),
     DrawCmd.beginPath,
     DrawCmd.moveTo (-20) 0,
     DrawCmd.lineTo (-15) (-12),
     DrawCmd.lineTo 15 (-12),
     DrawCmd.lineTo 20 0,
     DrawCmd.closePath,
     DrawCmd.fill,
     DrawCmd.setFill (FillKind.color colBlue400),
     DrawCmd.setShadowBlur 10,
     DrawCmd.setShadowColor colBlue500,
     DrawCmd.beginPath,
     DrawCmd.arcPi 0 (-6) 3 0 2,
     DrawCmd.fill,
     DrawCmd.setShadowBlur 0,
     DrawCmd.setFill (FillKind.color colGray950),
     DrawCmd.fillRect (-10) (-8) 20 2,
     DrawCmd.setStrokeColor colGray400,
     DrawCmd.setLineWidth 1,
     DrawCmd.beginPath,
     DrawCmd.moveTo 10 (-12),
     DrawCmd.lineTo 10 (-20),
     DrawCmd.stroke,
     DrawCmd.restore]
  else []

/-- One tower (cannon, shield arc, soldier); dead towers are skipped. -/
def drawTower (t : Tower) : List DrawCmd :=
  if t.alive then
    [DrawCmd.save,
     DrawCmd.translate t.x t.y,
     DrawCmd.setFill (FillKind.color colGray600),
     DrawCmd.beginPath,
     DrawCmd.roundRect (-40) 0 80 30 8,
     DrawCmd.fill,
     DrawCmd.setFill (FillKind.color colGray700),
     DrawCmd.beginPath,
     DrawCmd.arcPi 0 0 24 1 0,
     DrawCmd.fill,
     DrawCmd.setStrokeColor colGray800,
     DrawCmd.setLineWidth 12,
     DrawCmd.setLineCap capRound,
     DrawCmd.beginPath,
     DrawCmd.moveTo 0 (-10),
     DrawCmd.lineTo 0 (-50),
     DrawCmd.stroke,
     DrawCmd.setStrokeColor colGray600,
     DrawCmd.setLineWidth 4,
     DrawCmd.beginPath,
     DrawCmd.moveTo (-4) (-20),
     DrawCmd.lineTo (-4) (-44),
     DrawCmd.stroke,
     DrawCmd.restore,
     DrawCmd.save,
     DrawCmd.translate t.x t.y,
     DrawCmd.setStrokeColor colShieldA,
     DrawCmd.setLineWidth 4,
     DrawCmd.beginPath,
     DrawCmd.arcPi 0 0 60 1.1 1.9,
     DrawCmd.stroke,
     DrawCmd.setStrokeColor colShieldB,
     DrawCmd.setLineWidth 8,
     DrawCmd.beginPath,
     DrawCmd.arcPi 0 0 62 1.1 1.9,
     DrawCmd.stroke,
     DrawCmd.restore,
     DrawCmd.save,
     DrawCmd.translate (t.x + 35) (t.y + 20),
     DrawCmd.setStrokeColor colGray700,
     DrawCmd.setLineWidth 2,
     DrawCmd.setFill (FillKind.color colGray800),
     DrawCmd.beginPath,
     DrawCmd.arcPi 0 (-16) 4 1 0,
     DrawCmd.fill,
     DrawCmd.beginPath,
     DrawCmd.arcPi 0 (-15) 3 0 2,
     DrawCmd.stroke,
     DrawCmd.setStrokeColor colGray600,
     DrawCmd.beginPath,
     DrawCmd.moveTo 0 (-12),
     DrawCmd.lineTo 0 (-4),
     DrawCmd.stroke,
     DrawCmd.beginPath,
     DrawCmd.moveTo (-4) (-10),
     DrawCmd.lineTo 4 (-10),
     DrawCmd.stroke,
     DrawCmd.setStrokeColor colBlack,
     DrawCmd.setLineWidth 1.5,
     DrawCmd.beginPath,
     DrawCmd.moveTo 2 (-10),
     DrawCmd.lineTo 8 (-15),
     DrawCmd.stroke,
     DrawCmd.setStrokeColor colGray600,
     DrawCmd.setLineWidth 2,
     DrawCmd.beginPath,
     DrawCmd.moveTo 0 (-4),
     DrawCmd.lineTo (-3) 4,
     DrawCmd.moveTo 0 (-4),
     DrawCmd.lineTo 3 4,
     DrawCmd.stroke,
     DrawCmd.restore]
  else []

/-- One rocket (dashed trail, flame, TIE-fighter body).  u is this
invocations Math.random() draw for the flame size. -/
def drawRocket (u : ℚ) (r : Rocket) : List DrawCmd :=
  let curX := interpX r
  let curY := interpY r
  let flameSize := (5 + u * 5) * 2
  [DrawCmd.setStrokeColor colTrail,
   DrawCmd.setLineDash [5, 5],
   DrawCmd.beginPath,
   DrawCmd.moveTo r.x r.y,
   DrawCmd.lineTo curX curY,
   DrawCmd.stroke,
   DrawCmd.setLineDash [],
   DrawCmd.save,
   DrawCmd.translate curX curY,
   DrawCmd.rotateAtan2HalfPi (r.targetY - r.y) (r.targetX - r.x),
   DrawCmd.setFill (FillKind.linear 0 0 0 flameSize
     [⟨0, colFlame⟩, ⟨1, colTransparent⟩]),
   DrawCmd.beginPath,
   DrawCmd.moveTo (-4) 10,
   DrawCmd.lineTo 0 (10 + flameSize),
   DrawCmd.lineTo 4 10,
   DrawCmd.fill,
   DrawCmd.setFill (FillKind.color colGray800),
   DrawCmd.beginPath,
   DrawCmd.arcPi 0 0 6 0 2,
   DrawCmd.fill,
   DrawCmd.fillRect (-12) (-10) 2 20,
   DrawCmd.fillRect 10 (-10) 2 20,
   DrawCmd.fillRect (-10) (-1) 4 2,
   DrawCmd.fillRect 6 (-1) 4 2,
   DrawCmd.setFill (FillKind.color colRed500),
   DrawCmd.beginPath,
   DrawCmd.arcPi 0 0 2 0 2,
   DrawCmd.fill,
   DrawCmd.restore]

/-- One interceptor (beam trail, plasma bolt, target X marker). -/
def drawInterceptor (i : Interceptor) : List DrawCmd :=
  let curX := i.startX + (i.targetX - i.startX) * i.progress
  let curY := i.startY + (i.targetY - i.startY) * i.progress
  [DrawCmd.setStrokeColor colBeam,
   DrawCmd.setLineWidth 2,
   DrawCmd.beginPath,
   DrawCmd.moveTo i.startX i.startY,
   DrawCmd.lineTo curX curY,
   DrawCmd.stroke,
   DrawCmd.save,
   DrawCmd.translate curX curY,
   DrawCmd.rotateAtan2HalfPi (i.targetY - i.startY) (i.targetX - i.startX),
   DrawCmd.setFill (FillKind.linear 0 (-10) 0 10
     [⟨0, colCyan⟩, ⟨1, colBlue500⟩]),
   DrawCmd.beginPath,
   DrawCmd.roundRect (-2) (-15) 4 30 2,
   DrawCmd.fill,
   DrawCmd.setShadowBlur 15,
   DrawCmd.setShadowColor colBlue500,
   DrawCmd.stroke,
   DrawCmd.restore,
   DrawCmd.setStrokeColor colWhite,
   DrawCmd.setLineWidth 1,
   DrawCmd.beginPath,
   DrawCmd.moveTo (i.targetX - 5) (i.targetY - 5),
   DrawCmd.lineTo (i.targetX + 5) (i.targetY + 5),
   DrawCmd.moveTo (i.targetX + 5) (i.targetY - 5),
   DrawCmd.lineTo (i.targetX - 5) (i.targetY + 5),
   DrawCmd.stroke]

/-- One explosion: a radial gradient disc of the current radius. -/
def drawExplosion (e : Explosion) : List DrawCmd :=
  [DrawCmd.setFill (FillKind.radial e.x e.y 0 e.x e.y e.radius
     [⟨0, colWhite⟩, ⟨0.4, colAmber⟩, ⟨1, colRedFade⟩]),
   DrawCmd.beginPath,
   DrawCmd.arcPi e.x e.y e.radius 0 2,
   DrawCmd.fill]

/-- The draw callback: clear, ground, cities, towers, rockets,
interceptors, explosions, in source order.  flameR is the stream of
Math.random() draws for the rocket flames, one per rocket in list order;
it is the only nondeterministic input of the renderer.  The callback
reads the state and emits commands only; it performs no writes to any
entity collection, the score or the phase. -/
def draw (s : GameState) (flameR : ℕ → ℚ) : List DrawCmd :=
  [DrawCmd.clearRect 0 0 s.width s.height] ++
  drawGround s.width s.height ++
  (s.cities.map drawCity).flatten ++
  (s.towers.map drawTower).flatten ++
  (s.rockets.enum.map (fun p => drawRocket (flameR p.1) p.2)).flatten ++
  (s.interceptors.map drawInterceptor).flatten ++
  (s.explosions.map drawExplosion).flatten

/-! ### Concrete instances used to exercise the definitions -/

/-- A fixed random draw of 0. -/
def u0 : UnitRand := ⟨0, le_refl 0, by norm_num⟩

/-- A fixed spawn randomness bundle. -/
def rnd0 : SpawnRand := ⟨u0, u0, u0⟩

/-- A dead tower at (10, 10). -/
def tDead : Tower := { x := 10, y := 10, alive := false, ammo := 40, maxAmmo := 40 }

/-- A PLAYING state whose towers are all dead and in which nothing is in
flight: the next step has no rocket impact. -/
def s1bad : GameState :=
  { gameState := GamePhase.PLAYING, score := 0, rockets := [],
    interceptors := [], explosions := [], cities := [], towers := [tDead],
    spawnTimer := 0, width := 100, height := 100 }

/-- A PLAYING state with a dead tower and one rocket about to impact it. -/
def s1imp : GameState :=
  { gameState := GamePhase.PLAYING, score := 0,
    rockets := [{ x := 0, y := 0, targetX := 10, targetY := 10, speed := 0,
                  progress := 1 }],
    interceptors := [], explosions := [], cities := [], towers := [tDead],
    spawnTimer := 0, width := 100, height := 100 }

/-- A stationary rocket whose interpolated position is (0, 0). -/
def rOrigin : Rocket :=
  { x := 0, y := 0, targetX := 1, targetY := 1, speed := 0, progress := 0 }

/-- A wide contracting explosion centered at (0, 0). -/
def eBig : Explosion :=
  { x := 0, y := 0, radius := 1000, maxRadius := 40, expanding := false,
    life := 1 }

/-- A PLAYING state at score 980 with three rockets sitting inside one
wide explosion: the next step destroys all three. -/
def s2 : GameState :=
  { gameState := GamePhase.PLAYING, score := 980,
    rockets := [rOrigin, rOrigin, rOrigin], interceptors := [],
    explosions := [eBig], cities := [], towers := [],
    spawnTimer := 0, width := 100, height := 100 }

/-- An expanding explosion one frame away from overshooting maxRadius. -/
def e8 : Explosion :=
  { x := 0, y := 0, radius := 39, maxRadius := 40, expanding := true,
    life := 1 }

/-- A contracting explosion that fades on the next step. -/
def eFade : Explosion :=
  { x := 0, y := 0, radius := 1, maxRadius := 40, expanding := false,
    life := 1 }

/-- A state with one rocket in flight, for exercising the renderer. -/
def s9 : GameState :=
  { gameState := GamePhase.PLAYING, score := 0, rockets := [rOrigin],
    interceptors := [], explosions := [], cities := [], towers := [],
    spawnTimer := 0, width := 100, height := 100 }

/-- A state with no rocket in flight, for exercising the renderer. -/
def s9e : GameState :=
  { gameState := GamePhase.PLAYING, score := 0, rockets := [],
    interceptors := [], explosions := [], cities := [], towers := [],
    spawnTimer := 0, width := 100, height := 100 }

/-- A finished state (WON) with leftover entities, for exercising the
reset. -/
def sWon : GameState :=
  { gameState := GamePhase.WON, score := 1000, rockets := [rOrigin],
    interceptors := [], explosions := [eBig], cities := [], towers := [tDead],
    spawnTimer := 55, width := 100, height := 200 }

/-- A fixed click randomness bundle (all draws 0). -/
def cr0 : ClickRand := ⟨u0, u0, u0⟩

/-- A PLAYING state with one alive tower at (100, 500). -/
def sClick : GameState :=
  { gameState := GamePhase.PLAYING, score := 0, rockets := [],
    interceptors := [],
    explosions := [], cities := [],
    towers := [{ x := 100, y := 500, alive := true, ammo := 40, maxAmmo := 40 }],
    spawnTimer := 0, width := 800, height := 600 }

/-- A PLAYING state with one rocket mid-flight and one interceptor
mid-flight, for exercising the monotonicity step. -/
def sMono : GameState :=
  { gameState := GamePhase.PLAYING, score := 40,
    rockets := [{ x := 0, y := 0, targetX := 50, targetY := 50,
                  speed := 0.002, progress := 0.5 }],
    interceptors := [{ startX := 10, startY := 90, x := 10, y := 90,
                       targetX := 40, targetY := 40, progress := 0.25,
                       speed := 0.13 }],
    explosions := [], cities := [],
    towers := [{ x := 10, y := 90, alive := true, ammo := 40, maxAmmo := 40 }],
    spawnTimer := 0, width := 100, height := 100 }

/-- A city sitting exactly at (10, 10), target of s4rocket. -/
def c4 : City := { x := 10, y := 10, alive := true }

/-- A rocket that has reached its target (10, 10). -/
def r4 : Rocket :=
  { x := 0, y := 0, targetX := 10, targetY := 10, speed := 0.002,
    progress := 1 }

/-! ### Structural lemmas about the step functions -/

/-- The spawn scheduler either leaves the rocket list unchanged or appends
exactly the one new rocket behind it. -/
theorem spawnStep_rockets_cases (delta : ℚ) (rnd : SpawnRand)
    (s : GameState) :
    (spawnStep delta rnd s).2 = s.rockets ∨
    (spawnStep delta rnd s).2 =
      s.rockets ++ [spawnRocket rnd s.score s.width (spawnTargets s)] := by
  unfold spawnStep
  by_cases h1 : max 266 (1000 - s.score / 100 * 66) < s.spawnTimer + delta
  · by_cases h2 : 0 < (spawnTargets s).length
    · right
      simp [h1, h2]
    · left
      simp [h1, h2]
  · left
    simp [h1]

/-- Unfolding of update in the PLAYING phase. -/
theorem update_eq_of_playing (dt : ℚ) (rnd : SpawnRand) (s : GameState)
    (hph : s.gameState = GamePhase.PLAYING) :
    update dt rnd s =
      { s with
        gameState := (exploStage (min dt 100) rnd s).phase,
        score := (exploStage (min dt 100) rnd s).score,
        rockets := (exploStage (min dt 100) rnd s).rockets,
        interceptors := (interStage (min dt 100) rnd s).interceptors,
        explosions := (exploStage (min dt 100) rnd s).explosions,
        spawnTimer := (spawnStep (min dt 100) rnd s).1 } := by
  simp [update, rocketStage, interStage, exploStage, hph]

/-- update is the identity outside the PLAYING phase. -/
theorem update_eq_of_not_playing (dt : ℚ) (rnd : SpawnRand) (s : GameState)
    (hph : s.gameState ≠ GamePhase.PLAYING) :
    update dt rnd s = s := by
  simp [update, hph]

/-- The survivors of the rocket loop are exactly the advanced rockets that
have not reached progress 1, in order. -/
theorem stepRockets_rockets_eq (delta : ℚ) (rs : List Rocket)
    (cs : List City) (ts : List Tower) (es : List Explosion)
    (ph : GamePhase) :
    (stepRockets delta rs cs ts es ph).rockets =
      (rs.map (advanceRocket delta)).filter
        (fun r => !decide (1 ≤ r.progress)) := by
  induction rs with
  | nil => simp [stepRockets]
  | cons r rest ih =>
    by_cases h : 1 ≤ (advanceRocket delta r).progress <;>
      simp [stepRockets, h, ih]

/-- The survivors of the interceptor loop are exactly the advanced
interceptors that have not reached progress 1, in order. -/
theorem stepInterceptors_inters_eq (delta : ℚ) (is_ : List Interceptor)
    (es : List Explosion) :
    (stepInterceptors delta is_ es).interceptors =
      (is_.map (advanceInterceptor delta)).filter
        (fun i => !decide (1 ≤ i.progress)) := by
  induction is_ with
  | nil => simp [stepInterceptors]
  | cons i rest ih =>
    by_cases h : 1 ≤ (advanceInterceptor delta i).progress <;>
      simp [stepInterceptors, h, ih]

/-- Characterization of one explosion hazard resolution: the rockets not
hit survive in order, each hit adds exactly 20 to the score, and each hit
appends one chain explosion at the interpolated kill position (in reverse
rocket order, because the loop runs from the last index down). -/
theorem collideRockets_eq (e : Explosion) (rkts : List Rocket)
    (sc : ℚ) (ph : GamePhase) :
    (collideRockets e rkts sc ph).rockets =
        rkts.filter (fun r => !hitB e r) ∧
    (collideRockets e rkts sc ph).score =
        sc + 20 * (rkts.countP (hitB e) : ℚ) ∧
    (collideRockets e rkts sc ph).chains =
        ((rkts.filter (hitB e)).reverse).map
          (fun r => chainExplosion (interpX r) (interpY r)) := by
  induction rkts with
  | nil => simp [collideRockets]
  | cons r rest ih =>
    obtain ⟨ih1, ih2, ih3⟩ := ih
    by_cases h : hitB e r = true
    · refine ⟨?_, ?_, ?_⟩ <;>
        simp [collideRockets, h, ih1, ih2, ih3, List.countP_cons,
          List.filter_cons] <;> ring
    · refine ⟨?_, ?_, ?_⟩ <;>
        simp [collideRockets, h, ih1, ih2, ih3, List.countP_cons,
          List.filter_cons]

/-- Count of hits plus count of survivors is the rocket count. -/
theorem countP_add_length_filter_not {α : Type} (p : α → Bool)
    (l : List α) :
    l.countP p + (l.filter (fun a => !p a)).length = l.length := by
  induction l with
  | nil => simp
  | cons a t ih =>
    by_cases h : p a = true <;>
      simp [List.countP_cons, List.filter_cons, h] <;> omega

/-- Conservation law of a single hazard resolution: 20 points enter the
score for each rocket that leaves the collection. -/
theorem collideRockets_invariant (e : Explosion) (rkts : List Rocket)
    (sc : ℚ) (ph : GamePhase) :
    (collideRockets e rkts sc ph).score +
        20 * ((collideRockets e rkts sc ph).rockets.length : ℚ) =
      sc + 20 * (rkts.length : ℚ) := by
  obtain ⟨h1, h2, -⟩ := collideRockets_eq e rkts sc ph
  have hc := countP_add_length_filter_not (hitB e) rkts
  rw [h1, h2]
  have : ((rkts.countP (hitB e) : ℚ)) +
      ((rkts.filter (fun r => !hitB e r)).length : ℚ) = (rkts.length : ℚ) := by
    exact_mod_cast congrArg (Nat.cast : ℕ → ℚ) hc
  ring_nf
  ring_nf at this
  linarith

/-- The score never decreases during a hazard resolution. -/
theorem collideRockets_score_mono (e : Explosion) (rkts : List Rocket)
    (sc : ℚ) (ph : GamePhase) :
    sc ≤ (collideRockets e rkts sc ph).score := by
  obtain ⟨-, h2, -⟩ := collideRockets_eq e rkts sc ph
  rw [h2]
  have : (0 : ℚ) ≤ (rkts.countP (hitB e) : ℚ) := by positivity
  linarith

/-- If even destroying every rocket could not reach the target score, the
hazard resolution leaves the phase untouched. -/
theorem collideRockets_phase_lt (e : Explosion) (rkts : List Rocket)
    (sc : ℚ) (ph : GamePhase)
    (h : sc + 20 * (rkts.length : ℚ) < 1000) :
    (collideRockets e rkts sc ph).phase = ph := by
  induction rkts with
  | nil => simp [collideRockets]
  | cons r rest ih =>
    simp only [List.length_cons, Nat.cast_add, Nat.cast_one] at h
    have hlen : sc + 20 * (rest.length : ℚ) < 1000 := by linarith
    have hinv := collideRockets_invariant e rest sc ph
    by_cases hh : hitB e r = true
    · have hns : (collideRockets e rest sc ph).score + 20 < 1000 := by
        have hlenpos : (0 : ℚ) ≤ ((collideRockets e rest sc ph).rockets.length : ℚ) := by
          positivity
        linarith
      have : ¬ TARGET_SCORE ≤ (collideRockets e rest sc ph).score + 20 := by
        simp only [TARGET_SCORE]
        linarith
      simp [collideRockets, hh, this, ih hlen]
    · simp [collideRockets, hh, ih hlen]

/-- Once the phase is WON with the target score already reached, a hazard
resolution keeps it WON. -/
theorem collideRockets_won (e : Explosion) (rkts : List Rocket)
    (sc : ℚ) (hsc : TARGET_SCORE ≤ sc) :
    (collideRockets e rkts sc GamePhase.WON).phase = GamePhase.WON := by
  induction rkts with
  | nil => simp [collideRockets]
  | cons r rest ih =>
    have hmono := collideRockets_score_mono e rest sc GamePhase.WON
    by_cases hh : hitB e r = true
    · have : TARGET_SCORE ≤ (collideRockets e rest sc GamePhase.WON).score + 20 := by
        simp only [TARGET_SCORE] at hsc ⊢
        linarith
      simp [collideRockets, hh, this]
    · simp [collideRockets, hh, ih]

/-- A hazard resolution that carries the score across the target threshold
ends with the phase WON. -/
theorem collideRockets_cross (e : Explosion) (rkts : List Rocket)
    (sc : ℚ) (ph : GamePhase) (hlt : sc < TARGET_SCORE)
    (hge : TARGET_SCORE ≤ (collideRockets e rkts sc ph).score) :
    (collideRockets e rkts sc ph).phase = GamePhase.WON := by
  induction rkts with
  | nil =>
    simp [collideRockets] at hge
    exact absurd hge (not_le.mpr hlt)
  | cons r rest ih =>
    by_cases hh : hitB e r = true
    · by_cases hthr : TARGET_SCORE ≤ (collideRockets e rest sc ph).score + 20
      · simp [collideRockets, hh, hthr]
      · exfalso
        simp only [collideRockets, hh, if_true] at hge
        exact hthr hge
    · simp only [collideRockets, hh, if_false, Bool.false_eq_true] at hge ⊢
      exact ih hge

/-- The chain explosions of one hazard resolution all start at radius 0,
expanding, with maxRadius 40. -/
theorem collideRockets_chains_shape (e : Explosion) (rkts : List Rocket)
    (sc : ℚ) (ph : GamePhase) :
    ∀ c ∈ (collideRockets e rkts sc ph).chains,
      c.radius = 0 ∧ c.expanding = true ∧ c.maxRadius = 40 := by
  obtain ⟨-, -, h3⟩ := collideRockets_eq e rkts sc ph
  rw [h3]
  intro c hc
  obtain ⟨r, -, hr⟩ := List.mem_map.mp hc
  subst hr
  exact ⟨rfl, rfl, rfl⟩

/-- The rockets leaving the explosion loop are a sublist of those
entering it (an explosion only ever removes rockets). -/
theorem stepExplosions_rockets_sublist (delta : ℚ) (es : List Explosion)
    (rkts : List Rocket) (sc : ℚ) (ph : GamePhase) :
    (stepExplosions delta es rkts sc ph).rockets.Sublist rkts := by
  induction es with
  | nil => simp [stepExplosions]
  | cons e rest ih =>
    cases h : advanceExplosion delta e with
    | none => simpa [stepExplosions, h] using ih
    | some ea =>
      have h1 := (collideRockets_eq ea
        (stepExplosions delta rest rkts sc ph).rockets
        (stepExplosions delta rest rkts sc ph).score
        (stepExplosions delta rest rkts sc ph).phase).1
      simp only [stepExplosions, h]
      rw [h1]
      exact (List.filter_sublist _).trans ih

/-- Conservation law of the explosion loop: 20 points enter the score for
each rocket destroyed during it. -/
theorem stepExplosions_invariant (delta : ℚ) (es : List Explosion)
    (rkts : List Rocket) (sc : ℚ) (ph : GamePhase) :
    (stepExplosions delta es rkts sc ph).score +
        20 * ((stepExplosions delta es rkts sc ph).rockets.length : ℚ) =
      sc + 20 * (rkts.length : ℚ) := by
  induction es with
  | nil => simp [stepExplosions]
  | cons e rest ih =>
    cases h : advanceExplosion delta e with
    | none => simpa [stepExplosions, h] using ih
    | some ea =>
      have hc := collideRockets_invariant ea
        (stepExplosions delta rest rkts sc ph).rockets
        (stepExplosions delta rest rkts sc ph).score
        (stepExplosions delta rest rkts sc ph).phase
      simp only [stepExplosions, h]
      rw [hc] at *
      linarith [ih]

/-- The score never decreases during the explosion loop. -/
theorem stepExplosions_score_mono (delta : ℚ) (es : List Explosion)
    (rkts : List Rocket) (sc : ℚ) (ph : GamePhase) :
    sc ≤ (stepExplosions delta es rkts sc ph).score := by
  induction es with
  | nil => simp [stepExplosions]
  | cons e rest ih =>
    cases h : advanceExplosion delta e with
    | none => simpa [stepExplosions, h] using ih
    | some ea =>
      have hc := collideRockets_score_mono ea
        (stepExplosions delta rest rkts sc ph).rockets
        (stepExplosions delta rest rkts sc ph).score
        (stepExplosions delta rest rkts sc ph).phase
      simp only [stepExplosions, h]
      exact ih.trans hc

/-- If even destroying every rocket could not reach the target score, the
explosion loop leaves the phase untouched. -/
theorem stepExplosions_phase_lt (delta : ℚ) (es : List Explosion)
    (rkts : List Rocket) (sc : ℚ) (ph : GamePhase)
    (h : sc + 20 * (rkts.length : ℚ) < 1000) :
    (stepExplosions delta es rkts sc ph).phase = ph := by
  induction es with
  | nil => simp [stepExplosions]
  | cons e rest ih =>
    cases hadv : advanceExplosion delta e with
    | none => simpa [stepExplosions, hadv] using ih
    | some ea =>
      have hinv := stepExplosions_invariant delta rest rkts sc ph
      have hlt : (stepExplosions delta rest rkts sc ph).score +
          20 * (((stepExplosions delta rest rkts sc ph).rockets.length : ℕ) : ℚ) <
          1000 := by linarith
      have hc := collideRockets_phase_lt ea
        (stepExplosions delta rest rkts sc ph).rockets
        (stepExplosions delta rest rkts sc ph).score
        (stepExplosions delta rest rkts sc ph).phase hlt
      simp only [stepExplosions, hadv]
      rw [hc]
      exact ih

/-- An explosion loop that carries the score across the target threshold
ends with the phase WON. -/
theorem stepExplosions_cross (delta : ℚ) (es : List Explosion)
    (rkts : List Rocket) (sc : ℚ) (ph : GamePhase)
    (hlt : sc < TARGET_SCORE)
    (hge : TARGET_SCORE ≤ (stepExplosions delta es rkts sc ph).score) :
    (stepExplosions delta es rkts sc ph).phase = GamePhase.WON := by
  induction es with
  | nil =>
    simp only [stepExplosions] at hge
    exact absurd hge (not_le.mpr hlt)
  | cons e rest ih =>
    cases hadv : advanceExplosion delta e with
    | none =>
      simp only [stepExplosions, hadv] at hge ⊢
      exact ih hge
    | some ea =>
      set o := stepExplosions delta rest rkts sc ph with ho
      by_cases hmid : TARGET_SCORE ≤ o.score
      · have hphase : o.phase = GamePhase.WON := ih hmid
        simp only [stepExplosions, hadv, ← ho]
        rw [hphase]
        exact collideRockets_won ea o.rockets o.score hmid
      · push_neg at hmid
        simp only [stepExplosions, hadv, ← ho] at hge ⊢
        exact collideRockets_cross ea o.rockets o.score o.phase hmid hge

/-- Marking a tower dead preserves a fully dead tower list. -/
theorem markTowerDead_dead (tx ty : ℚ) (ts : List Tower)
    (h : ∀ t ∈ ts, t.alive = false) :
    ∀ t ∈ markTowerDead tx ty ts, t.alive = false := by
  induction ts with
  | nil => simp [markTowerDead]
  | cons a rest ih =>
    intro t ht
    by_cases hm : a.x = tx ∧ a.y = ty
    · simp only [markTowerDead, if_pos hm] at ht
      rcases List.mem_cons.mp ht with h1 | h1
      · subst h1; rfl
      · exact h t (List.mem_cons_of_mem a h1)
    · simp only [markTowerDead, if_neg hm] at ht
      rcases List.mem_cons.mp ht with h1 | h1
      · exact h1 ▸ h a (List.mem_cons_self a rest)
      · exact ih (fun t2 ht2 => h t2 (List.mem_cons_of_mem a ht2)) t h1

/-- The rocket loop preserves a fully dead tower list. -/
theorem stepRockets_towers_dead (delta : ℚ) (rs : List Rocket)
    (cs : List City) (ts : List Tower) (es : List Explosion)
    (ph : GamePhase) (h : ∀ t ∈ ts, t.alive = false) :
    ∀ t ∈ (stepRockets delta rs cs ts es ph).towers, t.alive = false := by
  induction rs with
  | nil => simpa [stepRockets] using h
  | cons r rest ih =>
    by_cases hh : 1 ≤ (advanceRocket delta r).progress
    · simp only [stepRockets, if_pos hh]
      exact markTowerDead_dead r.targetX r.targetY _ ih
    · simpa only [stepRockets, if_neg hh] using ih

/-- If every tower is already dead and some rocket impacts during the
rocket loop, the loop ends with the phase LOST (the loss check runs after
each impact and sees only dead towers). -/
theorem stepRockets_lost (delta : ℚ) (rs : List Rocket)
    (cs : List City) (ts : List Tower) (es : List Explosion)
    (ph : GamePhase) (hdead : ∀ t ∈ ts, t.alive = false)
    (himp : ∃ r ∈ rs, 1 ≤ (advanceRocket delta r).progress) :
    (stepRockets delta rs cs ts es ph).phase = GamePhase.LOST := by
  induction rs with
  | nil => simp at himp
  | cons r rest ih =>
    by_cases hh : 1 ≤ (advanceRocket delta r).progress
    · have hall : (markTowerDead r.targetX r.targetY
          (stepRockets delta rest cs ts es ph).towers).all
          (fun t => !t.alive) = true := by
        refine List.all_eq_true.mpr fun t ht => ?_
        have := markTowerDead_dead r.targetX r.targetY _
          (stepRockets_towers_dead delta rest cs ts es ph hdead) t ht
        simp [this]
      simp [stepRockets, hh, hall]
    · obtain ⟨r0, hr0, hp0⟩ := himp
      rcases List.mem_cons.mp hr0 with h1 | h1
      · exact absurd (h1 ▸ hp0) hh
      · simp only [stepRockets, if_neg hh]
        exact ih ⟨r0, h1, hp0⟩

/-- Marking acts on the first coordinate match: with no match before c and
c matching, exactly c flips to dead and everything else is untouched. -/
theorem markCityDead_decomp (tx ty : ℚ) (cpre : List City) (c : City)
    (cpost : List City) (hpre : ∀ c2 ∈ cpre, ¬(c2.x = tx ∧ c2.y = ty))
    (hx : c.x = tx) (hy : c.y = ty) :
    markCityDead tx ty (cpre ++ c :: cpost) =
      cpre ++ { c with alive := false } :: cpost := by
  induction cpre with
  | nil => simp [markCityDead, hx, hy]
  | cons a pre ih =>
    have ha : ¬(a.x = tx ∧ a.y = ty) := hpre a (List.mem_cons_self a pre)
    simp only [List.cons_append, markCityDead, if_neg ha, List.cons.injEq,
      true_and]
    exact ih fun c2 hc2 => hpre c2 (List.mem_cons_of_mem a hc2)

/-- Tower version of the first-match marking characterization. -/
theorem markTowerDead_decomp (tx ty : ℚ) (tpre : List Tower) (t : Tower)
    (tpost : List Tower) (hpre : ∀ t2 ∈ tpre, ¬(t2.x = tx ∧ t2.y = ty))
    (hx : t.x = tx) (hy : t.y = ty) :
    markTowerDead tx ty (tpre ++ t :: tpost) =
      tpre ++ { t with alive := false } :: tpost := by
  induction tpre with
  | nil => simp [markTowerDead, hx, hy]
  | cons a pre ih =>
    have ha : ¬(a.x = tx ∧ a.y = ty) := hpre a (List.mem_cons_self a pre)
    simp only [List.cons_append, markTowerDead, if_neg ha, List.cons.injEq,
      true_and]
    exact ih fun t2 ht2 => hpre t2 (List.mem_cons_of_mem a ht2)

/-- Decomposition of the explosion loop output: the final explosion list
is the advanced survivors of the entering explosions (in order) followed
by the chain explosions pushed during the loop; every chain still has
radius 0 (it is never advanced within the step), one chain was pushed per
destroyed rocket, and each destroyed rocket scored exactly 20. -/
theorem stepExplosions_decomp (delta : ℚ) (es : List Explosion)
    (rkts : List Rocket) (sc : ℚ) (ph : GamePhase) :
    ∃ surv chains,
      (stepExplosions delta es rkts sc ph).explosions = surv ++ chains ∧
      (∀ e2 ∈ surv, ∃ e0 ∈ es, advanceExplosion delta e0 = some e2) ∧
      (∀ c ∈ chains,
        c.radius = 0 ∧ c.expanding = true ∧ c.maxRadius = 40) ∧
      (stepExplosions delta es rkts sc ph).score =
        sc + 20 * (chains.length : ℚ) ∧
      (stepExplosions delta es rkts sc ph).rockets.length + chains.length =
        rkts.length := by
  induction es with
  | nil => exact ⟨[], [], by simp [stepExplosions]⟩
  | cons e rest ih =>
    obtain ⟨surv0, chains0, hdec, hsurv, hchain, hscore, hlen⟩ := ih
    cases hadv : advanceExplosion delta e with
    | none =>
      refine ⟨surv0, chains0, ?_, ?_, hchain, ?_, ?_⟩
      · simpa only [stepExplosions, hadv] using hdec
      · exact fun e2 he2 =>
          (hsurv e2 he2).imp fun e0 h0 => ⟨List.mem_cons_of_mem e h0.1, h0.2⟩
      · simpa only [stepExplosions, hadv] using hscore
      · simpa only [stepExplosions, hadv] using hlen
    | some ea =>
      set o := stepExplosions delta rest rkts sc ph with ho
      set c := collideRockets ea o.rockets o.score o.phase with hc
      have heq := collideRockets_eq ea o.rockets o.score o.phase
      have hclen : c.chains.length = o.rockets.countP (hitB ea) := by
        rw [hc, heq.2.2]
        simp [List.countP_eq_length_filter]
      have hrlen : c.rockets.length + c.chains.length = o.rockets.length := by
        rw [hc, heq.1, hclen]
        have := countP_add_length_filter_not (hitB ea) o.rockets
        omega
      refine ⟨ea :: surv0, chains0 ++ c.chains, ?_, ?_, ?_, ?_, ?_⟩
      · simp only [stepExplosions, hadv, ← ho, ← hc]
        rw [hdec]
        simp
      · intro e2 he2
        rcases List.mem_cons.mp he2 with h1 | h1
        · exact ⟨e, List.mem_cons_self e rest, h1 ▸ hadv⟩
        · exact (hsurv e2 h1).imp fun e0 h0 =>
            ⟨List.mem_cons_of_mem e h0.1, h0.2⟩
      · intro ch hch
        rcases List.mem_append.mp hch with h1 | h1
        · exact hchain ch h1
        · exact collideRockets_chains_shape ea o.rockets o.score o.phase ch
            (hc ▸ h1)
      · simp only [stepExplosions, hadv, ← ho, ← hc]
        have : c.score = o.score + 20 * (o.rockets.countP (hitB ea) : ℚ) := by
          rw [hc, heq.2.1]
        rw [this, hscore, ← hclen]
        push_cast [List.length_append]
        ring
      · simp only [stepExplosions, hadv, ← ho, ← hc, List.length_append]
        omega

/-- The first tower of the distance-sorted alive towers is an alive tower
of the collection at minimal squared distance from the tap point. -/
theorem sortedAliveTowers_head (x y : ℚ) (ts : List Tower) (tw : Tower)
    (rest : List Tower) (h : sortedAliveTowers x y ts = tw :: rest) :
    tw ∈ ts ∧ tw.alive = true ∧
      ∀ t ∈ ts, t.alive = true →
        dist2 ⟨x, y⟩ ⟨tw.x, tw.y⟩ ≤ dist2 ⟨x, y⟩ ⟨t.x, t.y⟩ := by
  have hperm := List.mergeSort_perm (ts.filter (fun t => t.alive))
    (fun a b => decide (dist2 ⟨x, y⟩ ⟨a.x, a.y⟩ ≤ dist2 ⟨x, y⟩ ⟨b.x, b.y⟩))
  have hsorted := @List.sorted_mergeSort Tower
    (fun a b : Tower =>
      decide (dist2 ⟨x, y⟩ ⟨a.x, a.y⟩ ≤ dist2 ⟨x, y⟩ ⟨b.x, b.y⟩))
    (fun a b c hab hbc => by
      simp only [decide_eq_true_eq] at hab hbc ⊢
      exact hab.trans hbc)
    (fun a b => by
      simp only [Bool.or_eq_true, decide_eq_true_eq]
      exact le_total _ _)
    (ts.filter (fun t => t.alive))
  rw [sortedAliveTowers] at h
  rw [h] at hperm hsorted
  have htw : tw ∈ ts.filter (fun t => t.alive) :=
    hperm.mem_iff.mp (List.mem_cons_self tw rest)
  refine ⟨(List.mem_filter.mp htw).1, (List.mem_filter.mp htw).2, ?_⟩
  intro t ht halive
  have htmem : t ∈ tw :: rest :=
    hperm.mem_iff.mpr (List.mem_filter.mpr ⟨ht, halive⟩)
  rcases List.mem_cons.mp htmem with h1 | h1
  · rw [h1]
  · have := List.rel_of_pairwise_cons hsorted h1
    simpa only [decide_eq_true_eq] using this

/-! ### Claims -/

/-- C3: during the explosion-hazard phase of a step, every rocket whose
interpolated position is strictly inside a live explosion radius is
removed, the score rises by exactly 20 per removed rocket, and one chain
explosion (radius 0, maxRadius 40, expanding) spawns at each kill
location; one explosion may destroy several rockets (the count in the
formulas is unbounded), while a destroyed rocket is gone from the list
and cannot be credited again within the step: over the whole explosion
loop the score rises by exactly 20 per rocket that left the collection,
and the surviving rockets are a sublist of the entering ones. -/
theorem C3_explosion_hazard :
    (∀ (e : Explosion) (rkts : List Rocket) (sc : ℚ) (ph : GamePhase),
      (collideRockets e rkts sc ph).rockets =
          rkts.filter (fun r => !hitB e r) ∧
      (collideRockets e rkts sc ph).score =
          sc + 20 * (rkts.countP (hitB e) : ℚ) ∧
      (collideRockets e rkts sc ph).chains =
          ((rkts.filter (hitB e)).reverse).map
            (fun r => chainExplosion (interpX r) (interpY r)) ∧
      (∀ c ∈ (collideRockets e rkts sc ph).chains,
        c.radius = 0 ∧ c.expanding = true ∧ c.maxRadius = 40)) ∧
    (∀ (delta : ℚ) (es : List Explosion) (rkts : List Rocket) (sc : ℚ)
        (ph : GamePhase),
      (stepExplosions delta es rkts sc ph).rockets.Sublist rkts ∧
      (stepExplosions delta es rkts sc ph).score +
          20 * ((stepExplosions delta es rkts sc ph).rockets.length : ℚ) =
        sc + 20 * (rkts.length : ℚ)) := by
  constructor
  · intro e rkts sc ph
    obtain ⟨h1, h2, h3⟩ := collideRockets_eq e rkts sc ph
    exact ⟨h1, h2, h3, collideRockets_chains_shape e rkts sc ph⟩
  · intro delta es rkts sc ph
    exact ⟨stepExplosions_rockets_sublist delta es rkts sc ph,
      stepExplosions_invariant delta es rkts sc ph⟩

/-- C4: when a rocket reaches progress 1 during a step, impact resolution
removes the rocket, pushes exactly one explosion with radius 0,
maxRadius 40 and expanding at the target point, and marks the first city
and the first tower whose position equals the target dead; when the match
is unique (no earlier coordinate match), exactly that installation flips
to alive = false and everything else is untouched. -/
theorem C4_impact_resolution (delta : ℚ) (r : Rocket) (cs : List City)
    (ts : List Tower) (es : List Explosion) (ph : GamePhase)
    (hprog : 1 ≤ (advanceRocket delta r).progress) :
    (stepRockets delta [r] cs ts es ph).rockets = [] ∧
    (stepRockets delta [r] cs ts es ph).explosions =
      es ++ [{ x := r.targetX, y := r.targetY, radius := 0, maxRadius := 40,
               expanding := true, life := 1 }] ∧
    (stepRockets delta [r] cs ts es ph).cities =
      markCityDead r.targetX r.targetY cs ∧
    (stepRockets delta [r] cs ts es ph).towers =
      markTowerDead r.targetX r.targetY ts ∧
    (∀ cpre c cpost, cs = cpre ++ c :: cpost →
      (∀ c2 ∈ cpre, ¬(c2.x = r.targetX ∧ c2.y = r.targetY)) →
      c.x = r.targetX → c.y = r.targetY →
      markCityDead r.targetX r.targetY cs =
        cpre ++ { c with alive := false } :: cpost) ∧
    (∀ tpre t tpost, ts = tpre ++ t :: tpost →
      (∀ t2 ∈ tpre, ¬(t2.x = r.targetX ∧ t2.y = r.targetY)) →
      t.x = r.targetX → t.y = r.targetY →
      markTowerDead r.targetX r.targetY ts =
        tpre ++ { t with alive := false } :: tpost) := by
  refine ⟨?_, ?_, ?_, ?_, ?_, ?_⟩
  · simp [stepRockets, hprog]
  · simp [stepRockets, hprog, impactExplosion]
  · simp [stepRockets, hprog]
  · simp [stepRockets, hprog]
  · intro cpre c cpost hdec hpre hx hy
    subst hdec
    exact markCityDead_decomp r.targetX r.targetY cpre c cpost hpre hx hy
  · intro tpre t tpost hdec hpre hx hy
    subst hdec
    exact markTowerDead_decomp r.targetX r.targetY tpre t tpost hpre hx hy

/-- C4 witness: a rocket at progress 1 targeting the unique city at
(10, 10), with one tower elsewhere. -/
theorem C4_impact_resolution_witness :
    1 ≤ (advanceRocket 0 r4).progress ∧
    (stepRockets 0 [r4] [c4] [tDead] [] GamePhase.PLAYING).rockets = [] ∧
    markCityDead r4.targetX r4.targetY [c4] =
      [{ c4 with alive := false }] := by
  have h : 1 ≤ (advanceRocket 0 r4).progress := by
    norm_num [advanceRocket, r4]
  have hmain := C4_impact_resolution 0 r4 [c4] [tDead] [] GamePhase.PLAYING h
  refine ⟨h, hmain.1, ?_⟩
  exact hmain.2.2.2.2.1 [] c4 [] rfl (by simp) rfl rfl

/-- C5: begin (initGame) from START, WON or LOST always yields PLAYING at
score 0 with empty transient collections, the spawn timer reset, 5 towers
at width fractions 0.1/0.3/0.5/0.7/0.9 (ammo 40, 40, 80, 40, 40) and 6
cities at fractions 0.2/0.4/0.45/0.55/0.6/0.8, regardless of residual
state. -/
theorem C5_initGame_reset (s : GameState)
    (h : s.gameState = GamePhase.START ∨ s.gameState = GamePhase.WON ∨
         s.gameState = GamePhase.LOST) :
    (initGame s).gameState = GamePhase.PLAYING ∧
    (initGame s).score = 0 ∧
    (initGame s).rockets = [] ∧
    (initGame s).interceptors = [] ∧
    (initGame s).explosions = [] ∧
    (initGame s).spawnTimer = 0 ∧
    (initGame s).towers =
      [{ x := s.width * 0.1, y := s.height - 50, alive := true,
         ammo := 40, maxAmmo := 40 },
       { x := s.width * 0.3, y := s.height - 50, alive := true,
         ammo := 40, maxAmmo := 40 },
       { x := s.width * 0.5, y := s.height - 50, alive := true,
         ammo := 80, maxAmmo := 80 },
       { x := s.width * 0.7, y := s.height - 50, alive := true,
         ammo := 40, maxAmmo := 40 },
       { x := s.width * 0.9, y := s.height - 50, alive := true,
         ammo := 40, maxAmmo := 40 }] ∧
    (initGame s).cities =
      [{ x := s.width * 0.2, y := s.height - 40, alive := true },
       { x := s.width * 0.4, y := s.height - 40, alive := true },
       { x := s.width * 0.45, y := s.height - 40, alive := true },
       { x := s.width * 0.55, y := s.height - 40, alive := true },
       { x := s.width * 0.6, y := s.height - 40, alive := true },
       { x := s.width * 0.8, y := s.height - 40, alive := true }] := by
  exact ⟨rfl, rfl, rfl, rfl, rfl, rfl, rfl, rfl⟩

/-- C5 witness: resetting from a finished WON state with leftover
entities. -/
theorem C5_initGame_reset_witness :
    (sWon.gameState = GamePhase.START ∨ sWon.gameState = GamePhase.WON ∨
      sWon.gameState = GamePhase.LOST) ∧
    (initGame sWon).gameState = GamePhase.PLAYING ∧
    (initGame sWon).score = 0 ∧
    (initGame sWon).rockets = [] ∧
    (initGame sWon).towers =
      [{ x := sWon.width * 0.1, y := sWon.height - 50, alive := true,
         ammo := 40, maxAmmo := 40 },
       { x := sWon.width * 0.3, y := sWon.height - 50, alive := true,
         ammo := 40, maxAmmo := 40 },
       { x := sWon.width * 0.5, y := sWon.height - 50, alive := true,
         ammo := 80, maxAmmo := 80 },
       { x := sWon.width * 0.7, y := sWon.height - 50, alive := true,
         ammo := 40, maxAmmo := 40 },
       { x := sWon.width * 0.9, y := sWon.height - 50, alive := true,
         ammo := 40, maxAmmo := 40 }] := by
  have h : sWon.gameState = GamePhase.START ∨ sWon.gameState = GamePhase.WON ∨
      sWon.gameState = GamePhase.LOST := Or.inr (Or.inl rfl)
  have hmain := C5_initGame_reset sWon h
  exact ⟨h, hmain.1, hmain.2.1, hmain.2.2.1, hmain.2.2.2.2.2.2.1⟩

/-- C9 counterexample: two invocations of the renderer on the same state
(one rocket in flight) with different Math.random() flame draws emit
different command sequences, refuting per-state determinism of the
renderer. -/
theorem C9_counterexample :
    draw s9 (fun _ => 0) ≠ draw s9 (fun _ => (1 : ℚ) / 2) := by
  intro h
  simp only [draw, s9, rOrigin, drawRocket, interpX, interpY,
    List.enum, List.map, List.flatten, List.append_assoc,
    List.cons_append, List.nil_append, List.append_nil,
    List.cons.injEq, List.append_cancel_left_eq] at h
  norm_num at h

/-- C9 amended: the renderer reads the state and emits drawing commands
only (it mutates no collection, by construction of draw), and it is
deterministic whenever no rocket is in flight; with rockets present the
flame-size random draw makes the command sequence vary between
invocations. -/
theorem C9_amended_draw_deterministic (s : GameState) (f1 f2 : ℕ → ℚ)
    (h : s.rockets = []) :
    draw s f1 = draw s f2 := by
  simp [draw, h]

/-- C9 witness: a rocket-free state renders identically under two
different flame draw streams. -/
theorem C9_amended_draw_deterministic_witness :
    s9e.rockets = [] ∧
    draw s9e (fun _ => 0) = draw s9e (fun _ => (1 : ℚ) / 2) :=
  ⟨rfl, C9_amended_draw_deterministic s9e _ _ rfl⟩

/-- C10: the explosion list leaving a step splits into the advanced
survivors of the explosions that entered the loop followed by the chain
explosions pushed during it; a chain explosion still has radius 0 at the
end of the step (the downward loop never visits entities appended during
it), exactly one chain was pushed per rocket destroyed (so chains
themselves destroyed nothing), and on a later step an expanding radius-0
chain grows by 1.5 * (delta / 16.67). -/
theorem C10_chain_not_advanced (delta : ℚ) (es : List Explosion)
    (rkts : List Rocket) (sc : ℚ) (ph : GamePhase) :
    ∃ surv chains,
      (stepExplosions delta es rkts sc ph).explosions = surv ++ chains ∧
      (∀ e2 ∈ surv, ∃ e0 ∈ es, advanceExplosion delta e0 = some e2) ∧
      (∀ c ∈ chains,
        c.radius = 0 ∧ c.expanding = true ∧ c.maxRadius = 40 ∧
        ∀ d2 : ℚ, advanceExplosion d2 c =
          some { c with
                 radius := c.radius + 1.5 * (d2 / 16.67),
                 expanding :=
                   if c.maxRadius ≤ c.radius + 1.5 * (d2 / 16.67) then false
                   else true }) ∧
      (stepExplosions delta es rkts sc ph).score =
        sc + 20 * (chains.length : ℚ) ∧
      (stepExplosions delta es rkts sc ph).rockets.length + chains.length =
        rkts.length := by
  obtain ⟨surv, chains, h1, h2, h3, h4, h5⟩ :=
    stepExplosions_decomp delta es rkts sc ph
  refine ⟨surv, chains, h1, h2, ?_, h4, h5⟩
  intro c hc
  obtain ⟨hr, hexp, hmax⟩ := h3 c hc
  exact ⟨hr, hexp, hmax, fun d2 => by simp [advanceExplosion, hexp]⟩

/-- C6: a tap at (x, y) is a no-op when no tower is alive; otherwise it
appends exactly 5 interceptors, each with origin the position of the alive
tower nearest to the tap (first of the stable distance sort), target
within 15 pixels of the tap in each axis, progress 0 and speed in
[0.12, 0.17). -/
theorem C6_click_burst (x y : ℚ) (rnd : Fin 5 → ClickRand) (s : GameState)
    (hph : s.gameState = GamePhase.PLAYING) :
    ((∀ t ∈ s.towers, t.alive = false) → handleCanvasClick x y rnd s = s) ∧
    ((∃ t ∈ s.towers, t.alive = true) →
      ∃ tw ∈ s.towers, tw.alive = true ∧
        (∀ t ∈ s.towers, t.alive = true →
          dist2 ⟨x, y⟩ ⟨tw.x, tw.y⟩ ≤ dist2 ⟨x, y⟩ ⟨t.x, t.y⟩) ∧
        handleCanvasClick x y rnd s =
          { s with interceptors :=
              s.interceptors ++
                List.ofFn (fun i : Fin 5 => mkInterceptor tw x y (rnd i)) } ∧
        (List.ofFn (fun i : Fin 5 => mkInterceptor tw x y (rnd i))).length
          = 5 ∧
        (∀ i : Fin 5,
          (mkInterceptor tw x y (rnd i)).startX = tw.x ∧
          (mkInterceptor tw x y (rnd i)).startY = tw.y ∧
          (mkInterceptor tw x y (rnd i)).progress = 0 ∧
          |(mkInterceptor tw x y (rnd i)).targetX - x| ≤ 15 ∧
          |(mkInterceptor tw x y (rnd i)).targetY - y| ≤ 15 ∧
          0.12 ≤ (mkInterceptor tw x y (rnd i)).speed ∧
          (mkInterceptor tw x y (rnd i)).speed < 0.17)) := by
  constructor
  · intro hdead
    have hfil : s.towers.filter (fun t => t.alive) = [] :=
      List.filter_eq_nil_iff.mpr fun t ht => by simp [hdead t ht]
    have hsort : sortedAliveTowers x y s.towers = [] := by
      rw [sortedAliveTowers, hfil, List.mergeSort_nil]
    simp [handleCanvasClick, hph, hsort]
  · intro halive
    cases hsort : sortedAliveTowers x y s.towers with
    | nil =>
      exfalso
      obtain ⟨t, ht, hta⟩ := halive
      have hperm := List.mergeSort_perm (s.towers.filter (fun t => t.alive))
        (fun a b => decide (dist2 ⟨x, y⟩ ⟨a.x, a.y⟩ ≤ dist2 ⟨x, y⟩ ⟨b.x, b.y⟩))
      rw [sortedAliveTowers] at hsort
      rw [hsort] at hperm
      have := hperm.symm.mem_iff.mp (List.mem_filter.mpr ⟨ht, hta⟩)
      simp at this
    | cons tw rest =>
      obtain ⟨htw, htwa, hmin⟩ := sortedAliveTowers_head x y s.towers tw rest
        hsort
      refine ⟨tw, htw, htwa, hmin, ?_, by simp, ?_⟩
      · simp [handleCanvasClick, hph, hsort]
      · intro i
        have h0x := (rnd i).oxR.nonneg
        have h1x := (rnd i).oxR.lt_one
        have h0y := (rnd i).oyR.nonneg
        have h1y := (rnd i).oyR.lt_one
        have h0s := (rnd i).spdR.nonneg
        have h1s := (rnd i).spdR.lt_one
        refine ⟨rfl, rfl, rfl, ?_, ?_, ?_, ?_⟩
        · show |x + ((rnd i).oxR.val - 0.5) * 30 - x| ≤ 15
          have : x + ((rnd i).oxR.val - 0.5) * 30 - x =
              ((rnd i).oxR.val - 0.5) * 30 := by ring
          rw [this, abs_le]
          constructor <;> nlinarith
        · show |y + ((rnd i).oyR.val - 0.5) * 30 - y| ≤ 15
          have : y + ((rnd i).oyR.val - 0.5) * 30 - y =
              ((rnd i).oyR.val - 0.5) * 30 := by ring
          rw [this, abs_le]
          constructor <;> nlinarith
        · show (0.12 : ℚ) ≤ 0.12 + (rnd i).spdR.val * 0.05
          nlinarith
        · show (0.12 : ℚ) + (rnd i).spdR.val * 0.05 < 0.17
          nlinarith

/-- C6 witness: a tap at (100, 500) with one alive tower at (100, 500)
enqueues a burst of 5 interceptors from that tower. -/
theorem C6_click_burst_witness :
    sClick.gameState = GamePhase.PLAYING ∧
    (∃ t ∈ sClick.towers, t.alive = true) ∧
    (∃ tw ∈ sClick.towers, tw.alive = true ∧
      (∀ t ∈ sClick.towers, t.alive = true →
        dist2 ⟨100, 500⟩ ⟨tw.x, tw.y⟩ ≤ dist2 ⟨100, 500⟩ ⟨t.x, t.y⟩) ∧
      handleCanvasClick 100 500 (fun _ => cr0) sClick =
        { sClick with
          interceptors := sClick.interceptors ++
            List.ofFn (fun i : Fin 5 =>
              mkInterceptor tw 100 500 ((fun _ : Fin 5 => cr0) i)) } ∧
      (List.ofFn (fun i : Fin 5 =>
          mkInterceptor tw 100 500 ((fun _ : Fin 5 => cr0) i))).length = 5 ∧
      (∀ i : Fin 5,
        (mkInterceptor tw 100 500 ((fun _ : Fin 5 => cr0) i)).startX
          = tw.x ∧
        (mkInterceptor tw 100 500 ((fun _ : Fin 5 => cr0) i)).startY
          = tw.y ∧
        (mkInterceptor tw 100 500 ((fun _ : Fin 5 => cr0) i)).progress
          = 0 ∧
        |(mkInterceptor tw 100 500 ((fun _ : Fin 5 => cr0) i)).targetX
          - 100| ≤ 15 ∧
        |(mkInterceptor tw 100 500 ((fun _ : Fin 5 => cr0) i)).targetY
          - 500| ≤ 15 ∧
        0.12 ≤ (mkInterceptor tw 100 500 ((fun _ : Fin 5 => cr0) i)).speed ∧
        (mkInterceptor tw 100 500 ((fun _ : Fin 5 => cr0) i)).speed
          < 0.17)) := by
  have h1 : sClick.gameState = GamePhase.PLAYING := rfl
  have h2 : ∃ t ∈ sClick.towers, t.alive = true :=
    ⟨_, List.mem_cons_self _ _, rfl⟩
  exact ⟨h1, h2, (C6_click_burst 100 500 (fun _ => cr0) sClick h1).2 h2⟩

/-- C8 counterexample: an expanding explosion at radius 39 with
maxRadius 40 overshoots to about 48 on a clamped dt = 100 frame (the
radius is not clamped at maxRadius), refuting that the radius never rises
above maxRadius. -/
theorem C8_counterexample :
    advanceExplosion 100 e8 =
      some { x := 0, y := 0, radius := 80013 / 1667, maxRadius := 40,
             expanding := false, life := 1 } ∧
    (40 : ℚ) < 80013 / 1667 := by
  constructor
  · have hcond : (40 : ℚ) ≤ 39 + 1.5 * (100 / 16.67) := by norm_num
    simp only [advanceExplosion, e8, if_pos, if_true]
    norm_num
  · norm_num

/-- C8 amended: while expanding, the radius grows by 1.5 * (dt / 16.67)
per step and the explosion switches to contracting in the step where the
radius reaches or exceeds maxRadius; the radius is not clamped, so it can
overshoot maxRadius in that step, but with dt clamped at 100 the overshoot
is below 9 pixels; while contracting it shrinks by 0.8 * (dt / 16.67) per
step and the explosion is removed from the collection once the radius
drops to 0 or below. -/
theorem C8_amended_radius_dynamics (delta : ℚ) (e : Explosion)
    (h0 : 0 ≤ delta) (h100 : delta ≤ 100) :
    (e.expanding = true →
      advanceExplosion delta e =
        some { e with
               radius := e.radius + 1.5 * (delta / 16.67),
               expanding :=
                 if e.maxRadius ≤ e.radius + 1.5 * (delta / 16.67) then false
                 else true } ∧
      (e.radius < e.maxRadius →
        e.radius + 1.5 * (delta / 16.67) < e.maxRadius + 9)) ∧
    (e.expanding = false →
      (e.radius - 0.8 * (delta / 16.67) ≤ 0 →
        advanceExplosion delta e = none ∧
        ∀ (rkts : List Rocket) (sc : ℚ) (ph : GamePhase),
          stepExplosions delta [e] rkts sc ph = ⟨[], rkts, sc, ph⟩) ∧
      (0 < e.radius - 0.8 * (delta / 16.67) →
        advanceExplosion delta e =
          some { e with radius := e.radius - 0.8 * (delta / 16.67) })) := by
  constructor
  · intro hexp
    refine ⟨by simp [advanceExplosion, hexp], ?_⟩
    intro hlt
    have key : 1.5 * (delta / 16.67) = delta * (150 / 1667) := by ring
    have hbound : delta * (150 / 1667) ≤ 100 * (150 / 1667) :=
      mul_le_mul_of_nonneg_right h100 (by norm_num)
    rw [key]
    nlinarith
  · intro hexp
    constructor
    · intro hfade
      have hnone : advanceExplosion delta e = none := by
        simp [advanceExplosion, hexp, hfade]
      exact ⟨hnone, fun rkts sc ph => by simp [stepExplosions, hnone]⟩
    · intro hpos
      have : ¬ (e.radius - 0.8 * (delta / 16.67) ≤ 0) := not_le.mpr hpos
      simp [advanceExplosion, hexp, this]

/-- C8 witness: a contracting explosion at radius 1 fades on a dt = 100
step and is removed from the explosion collection. -/
theorem C8_amended_radius_dynamics_witness :
    (0 : ℚ) ≤ 100 ∧ (100 : ℚ) ≤ 100 ∧ eFade.expanding = false ∧
    eFade.radius - 0.8 * (100 / 16.67) ≤ 0 ∧
    advanceExplosion 100 eFade = none ∧
    stepExplosions 100 [eFade] [rOrigin] 40 GamePhase.PLAYING =
      ⟨[], [rOrigin], 40, GamePhase.PLAYING⟩ := by
  have h1 : (0 : ℚ) ≤ 100 := by norm_num
  have h2 : (100 : ℚ) ≤ 100 := le_refl 100
  have h3 : eFade.expanding = false := rfl
  have h4 : eFade.radius - 0.8 * (100 / 16.67) ≤ 0 := by
    norm_num [eFade]
  have hmain :=
    ((C8_amended_radius_dynamics 100 eFade h1 h2).2 h3).1 h4
  exact ⟨h1, h2, h3, h4, hmain.1, hmain.2 [rOrigin] 40 GamePhase.PLAYING⟩

/-- C1 counterexample: a PLAYING state in which every tower is dead but
nothing is in flight; the step (dt = 0) leaves the phase PLAYING, because
the loss check only runs inside the rocket-impact branch and no rocket
impacts, refuting that any step from an all-towers-dead state reaches
LOST. -/
theorem C1_counterexample :
    s1bad.gameState = GamePhase.PLAYING ∧
    (∀ t ∈ s1bad.towers, t.alive = false) ∧
    (update 0 rnd0 s1bad).gameState ≠ GamePhase.LOST ∧
    (update 0 rnd0 s1bad).gameState = GamePhase.PLAYING := by
  have heval : (update 0 rnd0 s1bad).gameState = GamePhase.PLAYING := by
    rw [update_eq_of_playing 0 rnd0 s1bad rfl]
    show (exploStage (min 0 100) rnd0 s1bad).phase = GamePhase.PLAYING
    simp only [exploStage, interStage, rocketStage, s1bad, spawnStep,
      spawnTargets, tDead]
    norm_num [stepRockets, stepInterceptors, stepExplosions]
  refine ⟨rfl, ?_, ?_, heval⟩
  · simp [s1bad, tDead]
  · rw [heval]
    simp

/-- C1 amended: with every tower dead, a step reaches LOST exactly through
a rocket impact: if some rocket of the state reaches progress 1 during the
step (and the score is far enough below 1000 that the win check cannot
override the phase), the step ends in LOST; without an impact the phase
stays as it was (see the counterexample). -/
theorem C1_amended_lost_on_impact (dt : ℚ) (rnd : SpawnRand)
    (s : GameState) (hph : s.gameState = GamePhase.PLAYING)
    (hdead : ∀ t ∈ s.towers, t.alive = false)
    (himp : ∃ r ∈ s.rockets, 1 ≤ (advanceRocket (min dt 100) r).progress)
    (hscore : s.score + 20 * ((s.rockets.length : ℚ) + 1) < 1000) :
    (update dt rnd s).gameState = GamePhase.LOST := by
  rw [update_eq_of_playing dt rnd s hph]
  show (exploStage (min dt 100) rnd s).phase = GamePhase.LOST
  have himp2 : ∃ r ∈ (spawnStep (min dt 100) rnd s).2,
      1 ≤ (advanceRocket (min dt 100) r).progress := by
    obtain ⟨r, hr, hp⟩ := himp
    rcases spawnStep_rockets_cases (min dt 100) rnd s with h | h
    · exact ⟨r, h ▸ hr, hp⟩
    · exact ⟨r, h ▸ List.mem_append_left _ hr, hp⟩
  have hlost : (rocketStage (min dt 100) rnd s).phase = GamePhase.LOST :=
    stepRockets_lost (min dt 100) _ s.cities s.towers s.explosions
      s.gameState hdead himp2
  have hlen1 : (spawnStep (min dt 100) rnd s).2.length ≤
      s.rockets.length + 1 := by
    rcases spawnStep_rockets_cases (min dt 100) rnd s with h | h <;>
      rw [h] <;> simp
  have hlen2 : (rocketStage (min dt 100) rnd s).rockets.length ≤
      (spawnStep (min dt 100) rnd s).2.length := by
    rw [rocketStage, stepRockets_rockets_eq]
    have h1 := List.length_filter_le (fun r => !decide (1 ≤ r.progress))
      ((spawnStep (min dt 100) rnd s).2.map (advanceRocket (min dt 100)))
    simpa using h1
  have hbound : s.score +
      20 * (((rocketStage (min dt 100) rnd s).rockets.length : ℕ) : ℚ) <
      1000 := by
    have hle : ((rocketStage (min dt 100) rnd s).rockets.length : ℚ) ≤
        (s.rockets.length : ℚ) + 1 := by
      exact_mod_cast hlen2.trans hlen1
    linarith
  unfold exploStage
  rw [stepExplosions_phase_lt _ _ _ _ _ hbound]
  exact hlost

/-- C1 witness: all towers dead and one rocket at progress 1; the step
ends LOST. -/
theorem C1_amended_lost_on_impact_witness :
    s1imp.gameState = GamePhase.PLAYING ∧
    (∀ t ∈ s1imp.towers, t.alive = false) ∧
    (∃ r ∈ s1imp.rockets, 1 ≤ (advanceRocket (min 0 100) r).progress) ∧
    s1imp.score + 20 * ((s1imp.rockets.length : ℚ) + 1) < 1000 ∧
    (update 0 rnd0 s1imp).gameState = GamePhase.LOST := by
  have h1 : s1imp.gameState = GamePhase.PLAYING := rfl
  have h2 : ∀ t ∈ s1imp.towers, t.alive = false := by simp [s1imp, tDead]
  have h3 : ∃ r ∈ s1imp.rockets,
      1 ≤ (advanceRocket (min 0 100) r).progress := by
    refine ⟨_, List.mem_cons_self _ _, ?_⟩
    norm_num [advanceRocket, s1imp]
  have h4 : s1imp.score + 20 * ((s1imp.rockets.length : ℚ) + 1) < 1000 := by
    norm_num [s1imp]
  exact ⟨h1, h2, h3, h4, C1_amended_lost_on_impact 0 rnd0 s1imp h1 h2 h3 h4⟩

/-- C2 counterexample: at score 980 one explosion destroys three rockets
in the same step; the win check fires at 1000, yet the loop keeps
processing kills and the step ends at score 1040, exceeding the threshold
check by two further kills, refuting the claimed one-kill (+20) bound. -/
theorem C2_counterexample :
    s2.gameState = GamePhase.PLAYING ∧
    s2.score < 1000 ∧
    (update 0 rnd0 s2).score = 1040 ∧
    (update 0 rnd0 s2).gameState = GamePhase.WON ∧
    1000 + 20 < (update 0 rnd0 s2).score := by
  have hsc : (update 0 rnd0 s2).score = 1040 := by
    rw [update_eq_of_playing 0 rnd0 s2 rfl]
    show (exploStage (min 0 100) rnd0 s2).score = 1040
    simp only [exploStage, interStage, rocketStage, s2, spawnStep,
      spawnTargets, eBig, rOrigin]
    norm_num [stepRockets, stepInterceptors, stepExplosions, advanceRocket,
      advanceExplosion, collideRockets, hitB, dist2, interpX, interpY,
      TARGET_SCORE]
  have hph : (update 0 rnd0 s2).gameState = GamePhase.WON := by
    rw [update_eq_of_playing 0 rnd0 s2 rfl]
    show (exploStage (min 0 100) rnd0 s2).phase = GamePhase.WON
    simp only [exploStage, interStage, rocketStage, s2, spawnStep,
      spawnTargets, eBig, rOrigin]
    norm_num [stepRockets, stepInterceptors, stepExplosions, advanceRocket,
      advanceExplosion, collideRockets, hitB, dist2, interpX, interpY,
      TARGET_SCORE]
  refine ⟨rfl, by norm_num [s2], hsc, hph, ?_⟩
  rw [hsc]
  norm_num

/-- C2 amended: a PLAYING step whose score reaches or exceeds 1000 ends
with the phase WON (the win check fires at the crossing kill and later
kills keep it WON); the end-of-step score is the pre-step score plus 20
per rocket destroyed in the step, so it may exceed the threshold by more
than one kill when several rockets die after the crossing. -/
theorem C2_amended_won_threshold (dt : ℚ) (rnd : SpawnRand)
    (s : GameState) (hph : s.gameState = GamePhase.PLAYING)
    (hlt : s.score < 1000)
    (hge : 1000 ≤ (update dt rnd s).score) :
    (update dt rnd s).gameState = GamePhase.WON ∧
    ∃ k : ℕ, (update dt rnd s).score = s.score + 20 * (k : ℚ) ∧
      k ≤ s.rockets.length + 1 := by
  rw [update_eq_of_playing dt rnd s hph] at hge ⊢
  have hlen1 : (spawnStep (min dt 100) rnd s).2.length ≤
      s.rockets.length + 1 := by
    rcases spawnStep_rockets_cases (min dt 100) rnd s with h | h <;>
      rw [h] <;> simp
  have hlen2 : (rocketStage (min dt 100) rnd s).rockets.length ≤
      (spawnStep (min dt 100) rnd s).2.length := by
    rw [rocketStage, stepRockets_rockets_eq]
    have h1 := List.length_filter_le (fun r => !decide (1 ≤ r.progress))
      ((spawnStep (min dt 100) rnd s).2.map (advanceRocket (min dt 100)))
    simpa using h1
  have hsub : (exploStage (min dt 100) rnd s).rockets.length ≤
      (rocketStage (min dt 100) rnd s).rockets.length := by
    unfold exploStage
    exact (stepExplosions_rockets_sublist _ _ _ _ _).length_le
  constructor
  · show (exploStage (min dt 100) rnd s).phase = GamePhase.WON
    unfold exploStage at hge ⊢
    exact stepExplosions_cross _ _ _ _ _ hlt hge
  · have hinv : (exploStage (min dt 100) rnd s).score +
        20 * ((exploStage (min dt 100) rnd s).rockets.length : ℚ) =
        s.score +
          20 * ((rocketStage (min dt 100) rnd s).rockets.length : ℚ) := by
      unfold exploStage
      exact stepExplosions_invariant _ _ _ _ _
    refine ⟨(rocketStage (min dt 100) rnd s).rockets.length -
      (exploStage (min dt 100) rnd s).rockets.length, ?_, by omega⟩
    show (exploStage (min dt 100) rnd s).score = _
    have hcast : (((rocketStage (min dt 100) rnd s).rockets.length -
        (exploStage (min dt 100) rnd s).rockets.length : ℕ) : ℚ) =
        ((rocketStage (min dt 100) rnd s).rockets.length : ℚ) -
        ((exploStage (min dt 100) rnd s).rockets.length : ℚ) := by
      exact_mod_cast Nat.cast_sub hsub
    rw [hcast]
    linarith

/-- C2 witness: the 980-score three-kill state crosses the threshold and
ends WON with score of the form 980 + 20k. -/
theorem C2_amended_won_threshold_witness :
    s2.gameState = GamePhase.PLAYING ∧
    s2.score < 1000 ∧
    1000 ≤ (update 0 rnd0 s2).score ∧
    ((update 0 rnd0 s2).gameState = GamePhase.WON ∧
      ∃ k : ℕ, (update 0 rnd0 s2).score = s2.score + 20 * (k : ℚ) ∧
        k ≤ s2.rockets.length + 1) := by
  have h1 : s2.gameState = GamePhase.PLAYING := rfl
  have h2 : s2.score < 1000 := by norm_num [s2]
  have h3 : 1000 ≤ (update 0 rnd0 s2).score := by
    have hsc : (update 0 rnd0 s2).score = 1040 := by
      rw [update_eq_of_playing 0 rnd0 s2 rfl]
      show (exploStage (min 0 100) rnd0 s2).score = 1040
      simp only [exploStage, interStage, rocketStage, s2, spawnStep,
        spawnTargets, eBig, rOrigin]
      norm_num [stepRockets, stepInterceptors, stepExplosions,
        advanceRocket, advanceExplosion, collideRockets, hitB, dist2,
        interpX, interpY, TARGET_SCORE]
    rw [hsc]
    norm_num
  exact ⟨h1, h2, h3, C2_amended_won_threshold 0 rnd0 s2 h1 h2 h3⟩

/-- C7: for dt at least 0 (and nonnegative score and projectile speeds, as
every reachable state has), a step never decreases the score, is the
identity outside PLAYING, and in PLAYING every surviving rocket and
interceptor is the frame-advanced image of a pre-step one (or of the
rocket spawned this step, at progress 0) whose progress did not
decrease. -/
theorem C7_step_monotone (dt : ℚ) (rnd : SpawnRand) (s : GameState)
    (hdt : 0 ≤ dt) (hsc : 0 ≤ s.score)
    (hrs : ∀ r ∈ s.rockets, 0 ≤ r.speed)
    (his : ∀ i ∈ s.interceptors, 0 ≤ i.speed) :
    s.score ≤ (update dt rnd s).score ∧
    (s.gameState ≠ GamePhase.PLAYING → update dt rnd s = s) ∧
    (s.gameState = GamePhase.PLAYING →
      (∀ r2 ∈ (update dt rnd s).rockets, ∃ r1,
        r2 = advanceRocket (min dt 100) r1 ∧ r1.progress ≤ r2.progress ∧
        (r1 ∈ s.rockets ∨ r1.progress = 0)) ∧
      (∀ i2 ∈ (update dt rnd s).interceptors, ∃ i1 ∈ s.interceptors,
        i2 = advanceInterceptor (min dt 100) i1 ∧
        i1.progress ≤ i2.progress)) := by
  have hδ : 0 ≤ min dt 100 := le_min hdt (by norm_num)
  have hδ2 : 0 ≤ min dt 100 / 16.67 := by positivity
  refine ⟨?_, fun hph => update_eq_of_not_playing dt rnd s hph,
    fun hph => ?_⟩
  · by_cases hph : s.gameState = GamePhase.PLAYING
    · rw [update_eq_of_playing dt rnd s hph]
      show s.score ≤ (exploStage (min dt 100) rnd s).score
      unfold exploStage
      exact stepExplosions_score_mono _ _ _ _ _
    · rw [update_eq_of_not_playing dt rnd s hph]
  · constructor
    · intro r2 hr2
      rw [update_eq_of_playing dt rnd s hph] at hr2
      replace hr2 : r2 ∈ (exploStage (min dt 100) rnd s).rockets := hr2
      have hr2b : r2 ∈ (rocketStage (min dt 100) rnd s).rockets := by
        unfold exploStage at hr2
        exact (stepExplosions_rockets_sublist _ _ _ _ _).subset hr2
      rw [rocketStage, stepRockets_rockets_eq] at hr2b
      have hr2c := (List.mem_filter.mp hr2b).1
      obtain ⟨r1, hr1, heq⟩ := List.mem_map.mp hr2c
      have horigin : r1 ∈ s.rockets ∨ r1.progress = 0 := by
        rcases spawnStep_rockets_cases (min dt 100) rnd s with h | h
        · exact Or.inl (h ▸ hr1)
        · rw [h] at hr1
          rcases List.mem_append.mp hr1 with h1 | h1
          · exact Or.inl h1
          · right
            simp only [List.mem_singleton] at h1
            rw [h1, spawnRocket]
      have hspeed : 0 ≤ r1.speed := by
        rcases spawnStep_rockets_cases (min dt 100) rnd s with h | h
        · exact hrs r1 (h ▸ hr1)
        · rw [h] at hr1
          rcases List.mem_append.mp hr1 with h2 | h2
          · exact hrs r1 h2
          · simp only [List.mem_singleton] at h2
            rw [h2, spawnRocket]
            have hu := rnd.spdR.nonneg
            have hd : (0 : ℚ) ≤ s.score / 100000 := by positivity
            simp only []
            nlinarith
      refine ⟨r1, heq.symm, ?_, horigin⟩
      rw [← heq]
      show r1.progress ≤ (advanceRocket (min dt 100) r1).progress
      simp only [advanceRocket]
      nlinarith
    · intro i2 hi2
      rw [update_eq_of_playing dt rnd s hph] at hi2
      replace hi2 : i2 ∈ (interStage (min dt 100) rnd s).interceptors := hi2
      rw [interStage, stepInterceptors_inters_eq] at hi2
      have hi2b := (List.mem_filter.mp hi2).1
      obtain ⟨i1, hi1, heq⟩ := List.mem_map.mp hi2b
      refine ⟨i1, hi1, heq.symm, ?_⟩
      rw [← heq]
      show i1.progress ≤ (advanceInterceptor (min dt 100) i1).progress
      simp only [advanceInterceptor]
      have := his i1 hi1
      nlinarith

/-- C7 witness: a mid-flight state at dt = 0. -/
theorem C7_step_monotone_witness :
    (0 : ℚ) ≤ 0 ∧ 0 ≤ sMono.score ∧
    (∀ r ∈ sMono.rockets, 0 ≤ r.speed) ∧
    (∀ i ∈ sMono.interceptors, 0 ≤ i.speed) ∧
    sMono.score ≤ (update 0 rnd0 sMono).score := by
  have h1 : (0 : ℚ) ≤ 0 := le_refl 0
  have h2 : (0 : ℚ) ≤ sMono.score := by norm_num [sMono]
  have h3 : ∀ r ∈ sMono.rockets, 0 ≤ r.speed := by
    intro r hr
    simp only [sMono, List.mem_singleton] at hr
    rw [hr]
    norm_num
  have h4 : ∀ i ∈ sMono.interceptors, 0 ≤ i.speed := by
    intro i hi
    simp only [sMono, List.mem_singleton] at hi
    rw [hi]
    norm_num
  exact ⟨h1, h2, h3, h4, (C7_step_monotone 0 rnd0 sMono h1 h2 h3 h4).1⟩

end StarDefense
